import Mathlib

/-!
Shallow embedding of the go-funcards/mongodb package: the error
normalizer with its two gRPC interceptors (interceptors part of the
sources), the generic collection adapter with its filter normalization
and CRUD wrappers, and the session helper. Definitions are translated
from the Go source; driver calls are modelled as explicit function
parameters so that the wrapper logic around them is exact.
-/

namespace Mongodb

/-- gRPC status codes used by the package (google.golang.org/grpc/codes). -/
inductive StatusCode where
  | NotFound
  | AlreadyExists
  | DeadlineExceeded
  | Internal
  deriving DecidableEq

/-- String form of a status code, as grpc codes.Code.String() renders it. -/
def StatusCode.desc : StatusCode → String
  | .NotFound => "NotFound"
  | .AlreadyExists => "AlreadyExists"
  | .DeadlineExceeded => "DeadlineExceeded"
  | .Internal => "Internal"

/-- Model of a Go error value as observed by this package: a gRPC status
error (status.Error), the sentinel mongo.ErrNoDocuments, a driver
duplicate-key error, a driver timeout error, primitive.ErrInvalidHex,
an encoding/hex invalid-byte error, a plain errors.New string, or a
fmt.Errorf wrap of an inner error behind a message produced with a
trailing %w verb. -/
inductive GoError where
  | statusError (code : StatusCode) (msg : String)
  | noDocuments
  | dupKey (msg : String)
  | timeoutErr (msg : String)
  | invalidHex
  | invalidByte (c : Char)
  | errorString (msg : String)
  | wrapped (pre : String) (inner : GoError)
  deriving DecidableEq

/-- Error() string of a modelled Go error. mongo.ErrNoDocuments and
primitive.ErrInvalidHex carry their fixed driver messages; a status
error renders through grpc status formatting; a wrap concatenates the
format text in front of the inner message. -/
def GoError.message : GoError → String
  | .statusError c m => "rpc error: code = " ++ c.desc ++ " desc = " ++ m
  | .noDocuments => "mongo: no documents in result"
  | .dupKey m => m
  | .timeoutErr m => m
  | .invalidHex => "the provided hex string is not a valid ObjectID"
  | .invalidByte c => "encoding/hex: invalid byte: " ++ String.singleton c
  | .errorString m => m
  | .wrapped pre inner => pre ++ inner.message

/-- Model of status.FromError restricted to its ok flag and code: an error
constructed by status.Error carries a recognized status code, every
other error does not (the grpc version in use does not unwrap). -/
def statusFromError : GoError → Option StatusCode
  | .statusError c _ => some c
  | _ => none

/-- Model of errors.Is(err, mongo.ErrNoDocuments): true exactly when the
error is the sentinel or wraps it through a chain of %w wraps. -/
def GoError.isNoDocuments : GoError → Bool
  | .noDocuments => true
  | .wrapped _ inner => inner.isNoDocuments
  | _ => false

/-- Model of mongo.IsDuplicateKeyError, which searches the wrap chain for
a server error with a duplicate-key code. -/
def GoError.isDuplicateKey : GoError → Bool
  | .dupKey _ => true
  | .wrapped _ inner => inner.isDuplicateKey
  | _ => false

/-- Model of mongo.IsTimeout, which searches the wrap chain for a
timeout condition. -/
def GoError.isTimeout : GoError → Bool
  | .timeoutErr _ => true
  | .wrapped _ inner => inner.isTimeout
  | _ => false

/-- normalizeError from interceptors.go: nil passes through; an error
already carrying a status code passes through; otherwise classify to
NotFound, AlreadyExists, DeadlineExceeded or Internal in that order,
carrying the original message as the status description. -/
def normalizeError : Option GoError → Option GoError
  | none => none
  | some err =>
    if (statusFromError err).isSome then some err
    else if err.isNoDocuments then some (.statusError .NotFound err.message)
    else if err.isDuplicateKey then some (.statusError .AlreadyExists err.message)
    else if err.isTimeout then some (.statusError .DeadlineExceeded err.message)
    else some (.statusError .Internal err.message)

/-- ErrorUnaryServerInterceptor: run the handler, return its response
together with the normalized error. -/
def ErrorUnaryServerInterceptor {Req Res : Type} (handler : Req → Res × Option GoError)
    (req : Req) : Res × Option GoError :=
  let r := handler req
  (r.1, normalizeError r.2)

/-- ErrorStreamServerInterceptor: run the handler, return its error
normalized. -/
def ErrorStreamServerInterceptor {Srv : Type} (handler : Srv → Option GoError)
    (srv : Srv) : Option GoError :=
  normalizeError (handler srv)

/-- Model of a Go dynamic value (the any type) in the positions this
package inspects: a string, a primitive.ObjectID (12 bytes), the bson
shapes bson.A, bson.D, bson.E and bson.M, and the shapes the filter
normalizer rejects — a bare integer, a plain map of string to any, a
struct value, and nil. bson.M is a Go map; it is modelled as its list
of key-value pairs. -/
inductive GoValue where
  | str (s : String)
  | objectID (bytes : List Nat)
  | intVal (n : Int)
  | bsonA (xs : List GoValue)
  | bsonD (fields : List (String × GoValue))
  | bsonE (key : String) (val : GoValue)
  | bsonM (fields : List (String × GoValue))
  | goMap (fields : List (String × GoValue))
  | structVal (name : String) (fields : List (String × GoValue))
  | nilVal

/-- Value of one hexadecimal character, as encoding/hex fromHexChar
accepts it: digits, lowercase a to f, uppercase A to F. -/
def hexCharVal (c : Char) : Option Nat :=
  if 48 ≤ c.toNat ∧ c.toNat ≤ 57 then some (c.toNat - 48)
  else if 97 ≤ c.toNat ∧ c.toNat ≤ 102 then some (c.toNat - 87)
  else if 65 ≤ c.toNat ∧ c.toNat ≤ 70 then some (c.toNat - 55)
  else none

/-- Model of encoding/hex DecodeString on a character list: bytes are
decoded two characters at a time, the first invalid character aborts
with an invalid-byte error, and a leftover character is an odd-length
error. -/
def decodeHexBytes : List Char → Except GoError (List Nat)
  | [] => .ok []
  | [_] => .error (.errorString "encoding/hex: odd length hex string")
  | c1 :: c2 :: rest =>
    match hexCharVal c1 with
    | none => .error (.invalidByte c1)
    | some hi =>
      match hexCharVal c2 with
      | none => .error (.invalidByte c2)
      | some lo =>
        match decodeHexBytes rest with
        | .error e => .error e
        | .ok bs => .ok ((16 * hi + lo) :: bs)

/-- primitive.ObjectIDFromHex: a hex string of length other than 24 is
ErrInvalidHex; otherwise the string is hex-decoded into the 12 bytes
of an ObjectID, propagating any decode error. -/
def ObjectIDFromHex (s : String) : Except GoError (List Nat) :=
  if s.length ≠ 24 then .error .invalidHex
  else decodeHexBytes s.data

/-- Lowercase hexadecimal digit for a value below 16, as Go hex encoding
emits it. -/
def hexDigitChar (n : Nat) : Char :=
  if n < 10 then Char.ofNat (48 + n) else Char.ofNat (87 + n)

/-- primitive.ObjectID.Hex: the 24-character lowercase hex rendering of
the 12 identifier bytes. -/
def oidHex (bytes : List Nat) : String :=
  ⟨List.foldr (fun b acc => hexDigitChar (b / 16 % 16) :: hexDigitChar (b % 16) :: acc)
    [] bytes⟩

/-- ErrNormalizeFilter from interceptors.go. -/
def errNormalizeFilter : GoError := .errorString "couldn\x27t normalize filter"

/-- Format prefix of ErrMsgQuery with the %w verb stripped. -/
def errMsgQueryPre : String := "failed to execute query due to error: "

/-- Format prefix of ErrMsgDecode with the %w verb stripped. -/
def errMsgDecodePre : String := "failed to decode document due to error: "

/-- Format prefix of ErrMsgFromHex with the %w verb stripped. -/
def errMsgFromHexPre : String := "failed to convert hex to primitive.ObjectID due to error: "

/-- Collection.ObjectID: parse a hex string, wrapping a parse failure
with the ErrMsgFromHex message. -/
def CollectionObjectID (id : String) : Except GoError (List Nat) :=
  match ObjectIDFromHex id with
  | .error e => .error (.wrapped errMsgFromHexPre e)
  | .ok oid => .ok oid

/-- Collection.NormalizeFilter: a string is parsed as an ObjectID (a
parse failure is returned); an ObjectID becomes the filter map binding
the id key to it; the bson shapes bson.A, bson.D, bson.E and bson.M
pass through unchanged; every other shape is ErrNormalizeFilter. The
Go code first rebinds a string filter to the parsed ObjectID and then
falls into the ObjectID case; the two steps are fused here. -/
def NormalizeFilter (filter : GoValue) : Except GoError GoValue :=
  match filter with
  | .str s =>
    match CollectionObjectID s with
    | .error e => .error e
    | .ok oid => .ok (.bsonM [("_id", .objectID oid)])
  | .objectID oid => .ok (.bsonM [("_id", .objectID oid)])
  | .bsonA xs => .ok (.bsonA xs)
  | .bsonD fs => .ok (.bsonD fs)
  | .bsonE k v => .ok (.bsonE k v)
  | .bsonM fs => .ok (.bsonM fs)
  | _ => .error errNormalizeFilter

/-- Shape test for the values NormalizeFilter passes through unchanged:
the four bson shapes. -/
def GoValue.isBsonShape : GoValue → Bool
  | .bsonA _ => true
  | .bsonD _ => true
  | .bsonE _ _ => true
  | .bsonM _ => true
  | _ => false

/-- Shape test for filter inputs that are none of the accepted shapes:
not a string, not an ObjectID, not a bson shape. -/
def GoValue.isUnsupportedFilter : GoValue → Bool
  | .str _ => false
  | .objectID _ => false
  | .bsonA _ => false
  | .bsonD _ => false
  | .bsonE _ _ => false
  | .bsonM _ => false
  | _ => true

/-- Charset and length test for a well-formed 24-character hex string. -/
def isValidHex24 (s : String) : Bool :=
  s.length == 24 && s.data.all (fun c => (hexCharVal c).isSome)

/-- mongo.UpdateResult fields inspected by the wrapper (int64 counts). -/
structure UpdateResult where
  MatchedCount : Int
  ModifiedCount : Int
  UpsertedCount : Int
  deriving DecidableEq

/-- mongo.DeleteResult field inspected by the wrapper (int64 count). -/
structure DeleteResult where
  DeletedCount : Int
  deriving DecidableEq

/-- Outcome of a Go call that can also panic: a value, a returned error,
or a runtime panic. -/
inductive GoResult (α : Type) where
  | ok (a : α)
  | err (e : GoError)
  | panicked (msg : String)

/-- Test whether a GoResult is a returned value. -/
def GoResult.isOk {α : Type} : GoResult α → Bool
  | .ok _ => true
  | _ => false

/-- Conversion applied to each driver-generated inserted identifier: an
ObjectID renders as its hex string, every other value goes through the
unchecked Go type assertion to string, which panics unless the value
is a string. -/
def convertInsertedID : GoValue → GoResult String
  | .objectID oid => .ok (oidHex oid)
  | .str s => .ok s
  | _ => .panicked "interface conversion: the inserted id is not a string"

/-- Collection.InsertOne: delegate the document to the driver (modelled
as the function argument), wrap a driver error with the query message,
and otherwise convert the generated identifier. -/
def InsertOne {T : Type} (driver : T → Except GoError GoValue) (doc : T) :
    GoResult String :=
  match driver doc with
  | .error e => .err (.wrapped errMsgQueryPre e)
  | .ok insertedID => convertInsertedID insertedID

/-- Element-by-element identifier conversion for InsertMany; the first
panicking element aborts the whole call, as slice.Map evaluates in
order. -/
def convertInsertedIDs : List GoValue → GoResult (List String)
  | [] => .ok []
  | v :: rest =>
    match convertInsertedID v with
    | .ok s =>
      match convertInsertedIDs rest with
      | .ok ss => .ok (s :: ss)
      | .err e => .err e
      | .panicked m => .panicked m
    | .err e => .err e
    | .panicked m => .panicked m

/-- Collection.InsertMany: delegate the documents to the driver, wrap a
driver error with the query message, and otherwise convert each
generated identifier in order. -/
def InsertMany {T : Type} (driver : List T → Except GoError (List GoValue))
    (docs : List T) : GoResult (List String) :=
  match driver docs with
  | .error e => .err (.wrapped errMsgQueryPre e)
  | .ok ids => convertInsertedIDs ids

/-- Collection.UpdateOne: normalize the filter (returning its error), run
the driver update (modelled as the function argument, applied to the
normalized filter), wrap a driver error with the query message, and
when the driver reports zero matched, modified and upserted counts
return the query-wrapped no-documents error. -/
def UpdateOne (driver : GoValue → Except GoError UpdateResult) (filter : GoValue) :
    Option GoError :=
  match NormalizeFilter filter with
  | .error e => some e
  | .ok nf =>
    match driver nf with
    | .error e => some (.wrapped errMsgQueryPre e)
    | .ok result =>
      if result.MatchedCount == 0 && result.ModifiedCount == 0 &&
          result.UpsertedCount == 0 then
        some (.wrapped errMsgQueryPre .noDocuments)
      else none

/-- Collection.DeleteOne: normalize the filter, run the driver delete,
wrap a driver error with the query message, and when the driver
reports a zero deleted count return the query-wrapped no-documents
error. -/
def DeleteOne (driver : GoValue → Except GoError DeleteResult) (filter : GoValue) :
    Option GoError :=
  match NormalizeFilter filter with
  | .error e => some e
  | .ok nf =>
    match driver nf with
    | .error e => some (.wrapped errMsgQueryPre e)
    | .ok result =>
      if result.DeletedCount == 0 then some (.wrapped errMsgQueryPre .noDocuments)
      else none

/-- mongo.SingleResult as the wrapper observes it: its Err value and the
outcome of decoding it into the document type. -/
structure SingleResult (T : Type) where
  resErr : Option GoError
  decoded : Except GoError T

/-- Collection.Decode: a result error is wrapped with the query message;
a decode failure is wrapped with the decode message; otherwise the
document is returned. -/
def DecodeResult {T : Type} (r : SingleResult T) : Except GoError T :=
  match r.resErr with
  | some e => .error (.wrapped errMsgQueryPre e)
  | none =>
    match r.decoded with
    | .error e => .error (.wrapped errMsgDecodePre e)
    | .ok doc => .ok doc

/-- Collection.FindOne: normalize the filter, then decode the single
result the driver produces for the normalized filter. -/
def FindOne {T : Type} (driver : GoValue → SingleResult T) (filter : GoValue) :
    Except GoError T :=
  match NormalizeFilter filter with
  | .error e => .error e
  | .ok nf => DecodeResult (driver nf)

/-- mongo.Cursor as the wrapper observes it: its Err value and the
outcome of draining it into a document list. -/
structure Cursor (T : Type) where
  curErr : Option GoError
  allDocs : Except GoError (List T)

/-- Collection.All: a cursor error is wrapped with the query message; a
drain failure is wrapped with the decode message; otherwise the
documents are returned. -/
def CursorAll {T : Type} (cur : Cursor T) : Except GoError (List T) :=
  match cur.curErr with
  | some e => .error (.wrapped errMsgQueryPre e)
  | none =>
    match cur.allDocs with
    | .error e => .error (.wrapped errMsgDecodePre e)
    | .ok docs => .ok docs

/-- Collection.Find: normalize the filter, run the driver find, wrap a
driver error with the query message, and otherwise drain the cursor. -/
def Find {T : Type} (driver : GoValue → Except GoError (Cursor T)) (filter : GoValue) :
    Except GoError (List T) :=
  match NormalizeFilter filter with
  | .error e => .error e
  | .ok nf =>
    match driver nf with
    | .error e => .error (.wrapped errMsgQueryPre e)
    | .ok cur => CursorAll cur

/-- Collection.CountDocuments: normalize the filter, run the driver
count, wrap a driver error with the query message, and otherwise
return the int64 total converted to uint64. -/
def CountDocuments (driver : GoValue → Except GoError Int) (filter : GoValue) :
    Except GoError Nat :=
  match NormalizeFilter filter with
  | .error e => .error e
  | .ok nf =>
    match driver nf with
    | .error e => .error (.wrapped errMsgQueryPre e)
    | .ok total => .ok (Int.toNat (total % (2 ^ 64)))

/-- Session lifecycle events in the order UseSession performs them. -/
inductive SessionEvent where
  | startSession
  | runFn
  | abortTransaction
  | endSession
  deriving DecidableEq

/-- Outcome of UseSession: a returned error value (possibly nil) or a
propagating panic carrying the abort error. -/
inductive SessionOutcome where
  | ret (e : Option GoError)
  | panicked (e : GoError)
  deriving DecidableEq

/-- Behavior of the driver session collaborators for one UseSession call:
the error of client.StartSession, the error the caller-supplied
function produces under mongo.WithSession, and the error of
session.AbortTransaction. -/
structure SessionBehavior where
  startErr : Option GoError
  fnErr : Option GoError
  abortErr : Option GoError

/-- UseSession from the client helper file: start a session (returning
its error), defer ending the session, run the caller function under
the session; on a function error abort the transaction, panicking if
the abort itself fails, then return the function error. The deferred
EndSession runs on every exit path, including the panic, so it appears
in every trace once the session was started. -/
def UseSession (b : SessionBehavior) : SessionOutcome × List SessionEvent :=
  match b.startErr with
  | some e => (.ret (some e), [.startSession])
  | none =>
    match b.fnErr with
    | none => (.ret none, [.startSession, .runFn, .endSession])
    | some e =>
      match b.abortErr with
      | none =>
        (.ret (some e), [.startSession, .runFn, .abortTransaction, .endSession])
      | some ae =>
        (.panicked ae, [.startSession, .runFn, .abortTransaction, .endSession])

/-- Shape test for inserted-identifier values the conversion handles
without panicking: an ObjectID or a string. -/
def GoValue.isIDConvertible : GoValue → Bool
  | .objectID _ => true
  | .str _ => true
  | _ => false

/-- Driver behavior whose InsertOne generates a bare integer identifier,
as happens for a document whose id field holds an int. -/
def intIDDriver : Unit → Except GoError GoValue := fun _ => .ok (.intVal 42)

/-- C1: for a non-nil error that does not already carry a recognized
status code, normalizeError classifies in precedence order: wrapping
the driver no-documents sentinel gives NotFound, else a duplicate-key
error gives AlreadyExists, else a timeout gives DeadlineExceeded, else
Internal; in every branch the original message is the status detail. -/
theorem normalizeError_classification (e : GoError) (h : statusFromError e = none) :
    (e.isNoDocuments = true →
      normalizeError (some e) = some (.statusError .NotFound e.message)) ∧
    (e.isNoDocuments = false → e.isDuplicateKey = true →
      normalizeError (some e) = some (.statusError .AlreadyExists e.message)) ∧
    (e.isNoDocuments = false → e.isDuplicateKey = false → e.isTimeout = true →
      normalizeError (some e) = some (.statusError .DeadlineExceeded e.message)) ∧
    (e.isNoDocuments = false → e.isDuplicateKey = false → e.isTimeout = false →
      normalizeError (some e) = some (.statusError .Internal e.message)) := by
  refine ⟨?_, ?_, ?_, ?_⟩ <;> intros <;> simp_all [normalizeError]

/-- Witness for normalizeError_classification at concrete errors: a wrap
of the no-documents sentinel classifies to NotFound and a plain error
string classifies to Internal with its message preserved. -/
theorem normalizeError_classification_witness :
    normalizeError (some (.wrapped "q: " .noDocuments)) =
      some (.statusError .NotFound ("q: " ++ "mongo: no documents in result")) ∧
    normalizeError (some (.errorString "boom")) =
      some (.statusError .Internal "boom") := by
  constructor
  · exact (normalizeError_classification (.wrapped "q: " .noDocuments) rfl).1 rfl
  · exact (normalizeError_classification (.errorString "boom") rfl).2.2.2 rfl rfl rfl

/-- C2: normalizeError is the identity on nil and on errors that already
carry a recognized status code, and both interceptors pass a
successful handler result through untouched. -/
theorem normalizeError_identity {Req Res Srv : Type} (c : StatusCode) (m : String)
    (handler : Req → Res × Option GoError) (req : Req) (res : Res)
    (hs : Srv → Option GoError) (srv : Srv)
    (hok : handler req = (res, none)) (hsok : hs srv = none) :
    normalizeError none = none ∧
    normalizeError (some (.statusError c m)) = some (.statusError c m) ∧
    ErrorUnaryServerInterceptor handler req = (res, none) ∧
    ErrorStreamServerInterceptor hs srv = none := by
  refine ⟨rfl, by simp [normalizeError, statusFromError], ?_, ?_⟩
  · simp [ErrorUnaryServerInterceptor, hok, normalizeError]
  · simp [ErrorStreamServerInterceptor, hsok, normalizeError]

/-- Witness for normalizeError_identity at a concrete status error and
concrete successful handlers. -/
theorem normalizeError_identity_witness :
    normalizeError none = none ∧
    normalizeError (some (.statusError .NotFound "x")) =
      some (.statusError .NotFound "x") ∧
    ErrorUnaryServerInterceptor (fun _ : Nat => (7, (none : Option GoError))) 0 =
      (7, none) ∧
    ErrorStreamServerInterceptor (fun _ : Nat => (none : Option GoError)) 0 = none :=
  normalizeError_identity .NotFound "x" (fun _ : Nat => (7, none)) 0 7
    (fun _ : Nat => none) 0 rfl rfl

/-- Hex decoding succeeds on a list of valid hex characters of even
length. -/
theorem decodeHexBytes_ok : ∀ l : List Char,
    l.all (fun c => (hexCharVal c).isSome) = true → l.length % 2 = 0 →
    ∃ bs, decodeHexBytes l = Except.ok bs
  | [] => fun _ _ => ⟨[], rfl⟩
  | [_] => by intro _ h2; simp at h2
  | c1 :: c2 :: rest => by
    intro h1 h2
    simp only [List.all_cons, Bool.and_eq_true] at h1
    obtain ⟨hv1, hv2, hrest⟩ := h1
    obtain ⟨d1, hd1⟩ := Option.isSome_iff_exists.mp hv1
    obtain ⟨d2, hd2⟩ := Option.isSome_iff_exists.mp hv2
    have h2r : rest.length % 2 = 0 := by
      simp only [List.length_cons] at h2
      omega
    obtain ⟨bs, hbs⟩ := decodeHexBytes_ok rest hrest h2r
    exact ⟨(16 * d1 + d2) :: bs, by simp [decodeHexBytes, hd1, hd2, hbs]⟩

/-- Hex decoding fails on a list containing an invalid hex character. -/
theorem decodeHexBytes_err : ∀ l : List Char,
    l.all (fun c => (hexCharVal c).isSome) = false →
    ∃ e, decodeHexBytes l = Except.error e
  | [] => by intro h; simp at h
  | [c] => fun _ => ⟨.errorString "encoding/hex: odd length hex string", rfl⟩
  | c1 :: c2 :: rest => by
    intro h
    cases hd1 : hexCharVal c1 with
    | none => exact ⟨.invalidByte c1, by simp [decodeHexBytes, hd1]⟩
    | some d1 =>
      cases hd2 : hexCharVal c2 with
      | none => exact ⟨.invalidByte c2, by simp [decodeHexBytes, hd1, hd2]⟩
      | some d2 =>
        have hrest : rest.all (fun c => (hexCharVal c).isSome) = false := by
          simp only [List.all_cons, hd1, hd2, Option.isSome_some, Bool.true_and] at h
          exact h
        obtain ⟨e, he⟩ := decodeHexBytes_err rest hrest
        exact ⟨e, by simp [decodeHexBytes, hd1, hd2, he]⟩

/-- NormalizeFilter only ever succeeds with one of the four bson
shapes. -/
theorem normalizeFilter_shape_aux (f out : GoValue)
    (h : NormalizeFilter f = Except.ok out) : out.isBsonShape = true := by
  cases f with
  | str s =>
    cases hc : CollectionObjectID s with
    | error e => simp [NormalizeFilter, hc] at h
    | ok oid =>
      simp only [NormalizeFilter, hc, Except.ok.injEq] at h
      subst h
      rfl
  | objectID oid =>
    simp only [NormalizeFilter, Except.ok.injEq] at h
    subst h
    rfl
  | bsonA xs => simp only [NormalizeFilter, Except.ok.injEq] at h; subst h; rfl
  | bsonD fs => simp only [NormalizeFilter, Except.ok.injEq] at h; subst h; rfl
  | bsonE k v => simp only [NormalizeFilter, Except.ok.injEq] at h; subst h; rfl
  | bsonM fs => simp only [NormalizeFilter, Except.ok.injEq] at h; subst h; rfl
  | intVal n => simp [NormalizeFilter] at h
  | goMap fs => simp [NormalizeFilter] at h
  | structVal n fs => simp [NormalizeFilter] at h
  | nilVal => simp [NormalizeFilter] at h

/-- NormalizeFilter is the identity on the four bson shapes. -/
theorem normalizeFilter_bson_fixed (f : GoValue) (h : f.isBsonShape = true) :
    NormalizeFilter f = Except.ok f := by
  cases f <;> simp_all [GoValue.isBsonShape, NormalizeFilter]

/-- C3: when the normalized filter matches zero documents — the driver
update reports zero matched, modified and upserted counts, the driver
delete reports a zero deleted count — UpdateOne and DeleteOne return
the no-documents sentinel wrapped with the query-error message, even
though the driver call itself succeeded. -/
theorem updateDelete_zero_effect (filter nf : GoValue)
    (dU : GoValue → Except GoError UpdateResult)
    (dD : GoValue → Except GoError DeleteResult)
    (hn : NormalizeFilter filter = Except.ok nf)
    (hu : dU nf = Except.ok ⟨0, 0, 0⟩) (hd : dD nf = Except.ok ⟨0⟩) :
    UpdateOne dU filter = some (.wrapped errMsgQueryPre .noDocuments) ∧
    DeleteOne dD filter = some (.wrapped errMsgQueryPre .noDocuments) := by
  constructor
  · simp [UpdateOne, hn, hu]
  · simp [DeleteOne, hn, hd]

/-- Witness for updateDelete_zero_effect at a concrete filter and
drivers reporting zero effect. -/
theorem updateDelete_zero_effect_witness :
    UpdateOne (fun _ => Except.ok ⟨0, 0, 0⟩) (GoValue.bsonM []) =
      some (.wrapped errMsgQueryPre .noDocuments) ∧
    DeleteOne (fun _ => Except.ok ⟨0⟩) (GoValue.bsonM []) =
      some (.wrapped errMsgQueryPre .noDocuments) :=
  updateDelete_zero_effect (GoValue.bsonM []) (GoValue.bsonM [])
    (fun _ => Except.ok ⟨0, 0, 0⟩) (fun _ => Except.ok ⟨0⟩) rfl rfl rfl

/-- C4 counterexample: a driver-generated identifier that is neither an
ObjectID nor a string is not passed through as given — the unchecked
type assertion panics, so InsertOne produces no identifier at all. -/
theorem insertOne_passthrough_cex :
    (InsertOne intIDDriver ()).isOk = false ∧
    InsertOne intIDDriver () =
      .panicked "interface conversion: the inserted id is not a string" := by
  exact ⟨rfl, rfl⟩

/-- C4 as amended: an ObjectID identifier is returned as its hex string,
a string identifier is passed through as given, any other identifier
shape panics through the unchecked string type assertion; InsertMany
applies the same per-identifier conversion in order. -/
theorem insertOne_id_normalization {T : Type} (d : T → Except GoError GoValue)
    (dm : List T → Except GoError (List GoValue)) (doc : T) (docs : List T)
    (oid : List Nat) (s : String) (v : GoValue) (ids : List GoValue) :
    (d doc = Except.ok (.objectID oid) → InsertOne d doc = .ok (oidHex oid)) ∧
    (d doc = Except.ok (.str s) → InsertOne d doc = .ok s) ∧
    (v.isIDConvertible = false → d doc = Except.ok v →
      InsertOne d doc =
        .panicked "interface conversion: the inserted id is not a string") ∧
    (dm docs = Except.ok ids → InsertMany dm docs = convertInsertedIDs ids) ∧
    convertInsertedID (.objectID oid) = .ok (oidHex oid) ∧
    convertInsertedID (.str s) = .ok s := by
  refine ⟨?_, ?_, ?_, ?_, rfl, rfl⟩
  · intro h; simp [InsertOne, h, convertInsertedID]
  · intro h; simp [InsertOne, h, convertInsertedID]
  · intro hv h
    cases v <;> simp_all [GoValue.isIDConvertible, InsertOne, convertInsertedID]
  · intro h; simp [InsertMany, h]

/-- Witness for insertOne_id_normalization at concrete drivers: a string
identifier passes through and an all-zero ObjectID renders as 24 zero
characters. -/
theorem insertOne_id_normalization_witness :
    InsertOne (fun _ : Unit => Except.ok (GoValue.str "abc")) () = .ok "abc" ∧
    InsertOne (fun _ : Unit =>
        Except.ok (GoValue.objectID [0, 0, 0, 0, 0, 0, 0, 0, 0, 0, 0, 0])) () =
      .ok "000000000000000000000000" := by
  constructor
  · exact (insertOne_id_normalization (fun _ : Unit => Except.ok (GoValue.str "abc"))
      (fun _ => Except.ok []) () [] [] "abc" GoValue.nilVal []).2.1 rfl
  · exact (insertOne_id_normalization
      (fun _ : Unit => Except.ok (GoValue.objectID [0, 0, 0, 0, 0, 0, 0, 0, 0, 0, 0, 0]))
      (fun _ => Except.ok []) () [] [0, 0, 0, 0, 0, 0, 0, 0, 0, 0, 0, 0] "abc"
      GoValue.nilVal []).1 rfl

/-- C5: a well-formed 24-character hex string normalizes to the filter
map binding the id key to the parsed ObjectID, while a malformed hex
string yields the hex-parse error wrapped with the ErrMsgFromHex
message, which is never the generic normalization failure. -/
theorem normalizeFilter_hex (s : String) :
    (isValidHex24 s = true →
      ∃ oid, CollectionObjectID s = Except.ok oid ∧
        NormalizeFilter (.str s) = Except.ok (.bsonM [("_id", .objectID oid)])) ∧
    (isValidHex24 s = false →
      (∃ e, NormalizeFilter (.str s) = Except.error (.wrapped errMsgFromHexPre e)) ∧
      NormalizeFilter (.str s) ≠ Except.error errNormalizeFilter) := by
  constructor
  · intro hv
    simp only [isValidHex24, Bool.and_eq_true, beq_iff_eq] at hv
    obtain ⟨hlen, hall⟩ := hv
    have heven : s.data.length % 2 = 0 := by
      have h24 : s.data.length = 24 := hlen
      omega
    obtain ⟨bs, hbs⟩ := decodeHexBytes_ok s.data hall heven
    have hobj : ObjectIDFromHex s = Except.ok bs := by
      simp [ObjectIDFromHex, hlen, hbs]
    have hcoll : CollectionObjectID s = Except.ok bs := by
      simp [CollectionObjectID, hobj]
    exact ⟨bs, hcoll, by simp [NormalizeFilter, hcoll]⟩
  · intro hv
    have hv2 : ¬ (s.length = 24 ∧ s.data.all (fun c => (hexCharVal c).isSome) = true) := by
      intro hcontra
      rw [isValidHex24] at hv
      simp [hcontra.1, hcontra.2] at hv
    rw [not_and_or] at hv2
    have hwrap : ∃ e, CollectionObjectID s = Except.error (.wrapped errMsgFromHexPre e) := by
      by_cases hlen : s.length = 24
      · have hall : s.data.all (fun c => (hexCharVal c).isSome) = false := by
          rcases hv2 with h1 | h2
          · exact absurd hlen h1
          · simpa using h2
        obtain ⟨e, he⟩ := decodeHexBytes_err s.data hall
        refine ⟨e, ?_⟩
        simp [CollectionObjectID, ObjectIDFromHex, hlen, he]
      · refine ⟨.invalidHex, ?_⟩
        simp [CollectionObjectID, ObjectIDFromHex, hlen]
    obtain ⟨e, he⟩ := hwrap
    constructor
    · exact ⟨e, by simp [NormalizeFilter, he]⟩
    · simp [NormalizeFilter, he, errNormalizeFilter]

/-- Witness for normalizeFilter_hex at the documented example identifier
and at a malformed string. -/
theorem normalizeFilter_hex_witness :
    isValidHex24 "507f1f77bcf86cd799439011" = true ∧
    (∃ oid, CollectionObjectID "507f1f77bcf86cd799439011" = Except.ok oid ∧
      NormalizeFilter (.str "507f1f77bcf86cd799439011") =
        Except.ok (.bsonM [("_id", .objectID oid)])) ∧
    isValidHex24 "zz" = false ∧
    NormalizeFilter (.str "zz") ≠ Except.error errNormalizeFilter :=
  ⟨by decide, (normalizeFilter_hex "507f1f77bcf86cd799439011").1 (by decide),
    by decide, ((normalizeFilter_hex "zz").2 (by decide)).2⟩

/-- C6: a filter that is not a string, not an ObjectID and not one of
the accepted bson shapes makes NormalizeFilter return the
normalization error, and every calling operation returns that same
error whatever the driver would do — the result does not depend on the
driver function, so no driver call is attempted. -/
theorem normalizeFilter_unsupported {T : Type} (f : GoValue)
    (dU : GoValue → Except GoError UpdateResult)
    (dD : GoValue → Except GoError DeleteResult)
    (dF1 : GoValue → SingleResult T)
    (dF : GoValue → Except GoError (Cursor T))
    (dC : GoValue → Except GoError Int)
    (h : f.isUnsupportedFilter = true) :
    NormalizeFilter f = Except.error errNormalizeFilter ∧
    UpdateOne dU f = some errNormalizeFilter ∧
    DeleteOne dD f = some errNormalizeFilter ∧
    FindOne dF1 f = Except.error errNormalizeFilter ∧
    Find dF f = Except.error errNormalizeFilter ∧
    CountDocuments dC f = Except.error errNormalizeFilter := by
  have hn : NormalizeFilter f = Except.error errNormalizeFilter := by
    cases f <;> simp_all [GoValue.isUnsupportedFilter, NormalizeFilter]
  exact ⟨hn, by simp [UpdateOne, hn], by simp [DeleteOne, hn],
    by simp [FindOne, hn], by simp [Find, hn], by simp [CountDocuments, hn]⟩

/-- Witness for normalizeFilter_unsupported at the bare integer 42 from
the spec example, with concrete driver behaviors. -/
theorem normalizeFilter_unsupported_witness :
    NormalizeFilter (.intVal 42) = Except.error errNormalizeFilter ∧
    UpdateOne (fun _ => Except.ok ⟨1, 1, 0⟩) (.intVal 42) = some errNormalizeFilter ∧
    DeleteOne (fun _ => Except.ok ⟨1⟩) (.intVal 42) = some errNormalizeFilter ∧
    FindOne (fun _ => (⟨none, Except.ok 0⟩ : SingleResult Nat)) (.intVal 42) =
      Except.error errNormalizeFilter ∧
    Find (fun _ => Except.ok (⟨none, Except.ok []⟩ : Cursor Nat)) (.intVal 42) =
      Except.error errNormalizeFilter ∧
    CountDocuments (fun _ => Except.ok 3) (.intVal 42) =
      Except.error errNormalizeFilter :=
  normalizeFilter_unsupported (.intVal 42) (fun _ => Except.ok ⟨1, 1, 0⟩)
    (fun _ => Except.ok ⟨1⟩) (fun _ => (⟨none, Except.ok 0⟩ : SingleResult Nat))
    (fun _ => Except.ok (⟨none, Except.ok []⟩ : Cursor Nat))
    (fun _ => Except.ok 3) rfl

/-- C7: every value NormalizeFilter accepts or produces renormalizes to
itself, since a successful normalization always yields one of the four
bson shapes and those pass through unchanged. -/
theorem normalizeFilter_idempotent (f out : GoValue)
    (h : NormalizeFilter f = Except.ok out) :
    NormalizeFilter out = Except.ok out :=
  normalizeFilter_bson_fixed out (normalizeFilter_shape_aux f out h)

/-- Witness for normalizeFilter_idempotent at the map produced from an
ObjectID filter. -/
theorem normalizeFilter_idempotent_witness :
    NormalizeFilter
        (.bsonM [("_id", .objectID [1, 2, 3, 4, 5, 6, 7, 8, 9, 10, 11, 12])]) =
      Except.ok
        (.bsonM [("_id", .objectID [1, 2, 3, 4, 5, 6, 7, 8, 9, 10, 11, 12])]) :=
  normalizeFilter_idempotent (.objectID [1, 2, 3, 4, 5, 6, 7, 8, 9, 10, 11, 12])
    (.bsonM [("_id", .objectID [1, 2, 3, 4, 5, 6, 7, 8, 9, 10, 11, 12])]) rfl

/-- C8: once a session is started, UseSession runs the caller function
inside exactly one session scope; a function error leads to an abort
recorded before the function error is returned, an abort failure
escalates to a panic carrying the abort error, and the deferred end of
the session appears on every exit path. -/
theorem useSession_spec (b : SessionBehavior) (e ae : GoError)
    (hstart : b.startErr = none) :
    ((UseSession b).2 = [.startSession, .runFn, .endSession] ∨
      (UseSession b).2 = [.startSession, .runFn, .abortTransaction, .endSession]) ∧
    (b.fnErr = some e → b.abortErr = none →
      UseSession b = (.ret (some e),
        [.startSession, .runFn, .abortTransaction, .endSession])) ∧
    (b.fnErr = some e → b.abortErr = some ae →
      UseSession b = (.panicked ae,
        [.startSession, .runFn, .abortTransaction, .endSession])) ∧
    SessionEvent.endSession ∈ (UseSession b).2 := by
  obtain ⟨se, fe, abe⟩ := b
  simp only at hstart
  subst hstart
  cases fe <;> cases abe <;> simp [UseSession]

/-- Witness for useSession_spec at concrete behaviors: a failing caller
function with a clean abort returns the function error after the abort
and before ending the session. -/
theorem useSession_spec_witness :
    UseSession ⟨none, some (.errorString "boom"), none⟩ =
      (.ret (some (.errorString "boom")),
        [.startSession, .runFn, .abortTransaction, .endSession]) ∧
    UseSession ⟨none, some (.errorString "boom"), some (.errorString "abort")⟩ =
      (.panicked (.errorString "abort"),
        [.startSession, .runFn, .abortTransaction, .endSession]) := by
  constructor
  · exact (useSession_spec ⟨none, some (.errorString "boom"), none⟩
      (.errorString "boom") (.errorString "abort") rfl).2.1 rfl rfl
  · exact (useSession_spec ⟨none, some (.errorString "boom"), some (.errorString "abort")⟩
      (.errorString "boom") (.errorString "abort") rfl).2.2.1 rfl rfl

/-- C9: every successful NormalizeFilter result is one of the four bson
shapes; the ObjectID case in particular yields the id-keyed map, while
a plain Go map and a struct value are rejected with the normalization
error even though the driver itself would accept them as filters. -/
theorem normalizeFilter_output_bson (f out : GoValue) (oid : List Nat)
    (fs gs : List (String × GoValue)) (nm : String)
    (h : NormalizeFilter f = Except.ok out) :
    out.isBsonShape = true ∧
    NormalizeFilter (.objectID oid) = Except.ok (.bsonM [("_id", .objectID oid)]) ∧
    NormalizeFilter (.goMap fs) = Except.error errNormalizeFilter ∧
    NormalizeFilter (.structVal nm gs) = Except.error errNormalizeFilter :=
  ⟨normalizeFilter_shape_aux f out h, rfl, rfl, rfl⟩

/-- Witness for normalizeFilter_output_bson at a concrete accepted
filter, rejected map and rejected struct. -/
theorem normalizeFilter_output_bson_witness :
    GoValue.isBsonShape (.bsonD [("name", .str "x")]) = true ∧
    NormalizeFilter (.objectID [0, 0, 0, 0, 0, 0, 0, 0, 0, 0, 0, 7]) =
      Except.ok (.bsonM [("_id", .objectID [0, 0, 0, 0, 0, 0, 0, 0, 0, 0, 0, 7])]) ∧
    NormalizeFilter (.goMap [("name", .str "x")]) = Except.error errNormalizeFilter ∧
    NormalizeFilter (.structVal "Query" []) = Except.error errNormalizeFilter :=
  normalizeFilter_output_bson (.bsonD [("name", .str "x")])
    (.bsonD [("name", .str "x")]) [0, 0, 0, 0, 0, 0, 0, 0, 0, 0, 0, 7]
    [("name", .str "x")] [] "Query" rfl

/-- C10: given a successful driver update, UpdateOne returns the
synthesized no-documents error exactly when matched, modified and
upserted counts are all zero; an upsert that matched nothing but
inserted a document is reported as success. -/
theorem updateOne_noDocuments_iff (filter nf : GoValue) (r : UpdateResult)
    (d : GoValue → Except GoError UpdateResult)
    (hn : NormalizeFilter filter = Except.ok nf) (hd : d nf = Except.ok r) :
    (UpdateOne d filter = some (.wrapped errMsgQueryPre .noDocuments) ↔
      r.MatchedCount = 0 ∧ r.ModifiedCount = 0 ∧ r.UpsertedCount = 0) ∧
    (0 < r.UpsertedCount → UpdateOne d filter = none) := by
  have hbase : UpdateOne d filter =
      (if r.MatchedCount == 0 && r.ModifiedCount == 0 && r.UpsertedCount == 0 then
        some (.wrapped errMsgQueryPre .noDocuments) else none) := by
    simp only [UpdateOne, hn, hd]
  constructor
  · rw [hbase]
    by_cases hb : (r.MatchedCount == 0 && r.ModifiedCount == 0 &&
        r.UpsertedCount == 0) = true
    · rw [if_pos hb]
      simp only [Bool.and_eq_true, beq_iff_eq] at hb
      simp [hb.1.1, hb.1.2, hb.2]
    · rw [if_neg hb]
      simp only [Bool.and_eq_true, beq_iff_eq, not_and_or] at hb
      constructor
      · intro hcontra; simp at hcontra
      · intro hc
        rcases hb with h | h <;> [rcases h with h | h; skip] <;>
          exact absurd (by simp [hc.1, hc.2.1, hc.2.2]) h
  · intro hup
    have hz : (r.UpsertedCount == 0) = false := by
      simp only [beq_eq_false_iff_ne, ne_eq]
      omega
    rw [hbase]
    simp [hz]

/-- Witness for updateOne_noDocuments_iff: a driver upsert that matched
nothing but inserted one document makes UpdateOne succeed, not report
no documents. -/
theorem updateOne_noDocuments_iff_witness :
    UpdateOne (fun _ => Except.ok ⟨0, 0, 1⟩) (GoValue.bsonM []) = none :=
  (updateOne_noDocuments_iff (GoValue.bsonM []) (GoValue.bsonM []) ⟨0, 0, 1⟩
    (fun _ => Except.ok ⟨0, 0, 1⟩) rfl rfl).2 (by decide)

end Mongodb
